import Mathlib

/-!
Verification of the SpendGuard client SDK (CLI surface `cynsta_spendguard_cli/main.py`
and library surface `spendguard_sdk/client.py`) against its natural-language
specification.  The Python code is shallowly embedded: pure request-building,
configuration resolution, response normalization and rendering become Lean
functions; the outcome of `json.loads` on a raw body is passed in explicitly as a
`JsonParse` value, since the JSON text parser itself is Python standard library,
not repository code.
-/

/-- JSON values as produced by `json.loads`.  Numbers are modelled as integers,
which covers every body this client builds or inspects.  Object fields are kept
in insertion order, as Python dicts do; keys are unique in any parsed dict. -/
inductive Json where
  | null
  | bool (b : Bool)
  | num (n : Int)
  | str (s : String)
  | arr (xs : List Json)
  | obj (fields : List (String × Json))

/-- `dict.get(key)` on a parsed JSON object: first (unique) matching key. -/
def lookupJson (key : String) : List (String × Json) → Option Json
  | [] => none
  | (k, v) :: rest => if k = key then some v else lookupJson key rest

/-- Python truthiness of a JSON value (`if name:`). -/
def Json.pyTruthy : Json → Bool
  | .null => false
  | .bool b => b
  | .num n => n != 0
  | .str s => s != ""
  | .arr xs => !xs.isEmpty
  | .obj fs => !fs.isEmpty

/-- A single-quote character, used by Python `repr` of strings. -/
def pySQuote : String := String.singleton (Char.ofNat 39)

mutual

/-- Python `repr` of a JSON value (escaping inside nested strings is not
modelled; no claim evaluates it on strings containing quotes). -/
def Json.pyRepr : Json → String
  | .null => "None"
  | .bool true => "True"
  | .bool false => "False"
  | .num n => toString n
  | .str s => pySQuote ++ s ++ pySQuote
  | .arr xs => "[" ++ pyReprList xs ++ "]"
  | .obj fs => "\x7b" ++ pyReprFields fs ++ "\x7d"

def pyReprList : List Json → String
  | [] => ""
  | [x] => Json.pyRepr x
  | x :: xs => Json.pyRepr x ++ ", " ++ pyReprList xs

def pyReprFields : List (String × Json) → String
  | [] => ""
  | [(k, v)] => pySQuote ++ k ++ pySQuote ++ ": " ++ Json.pyRepr v
  | (k, v) :: fs => pySQuote ++ k ++ pySQuote ++ ": " ++ Json.pyRepr v ++ ", " ++ pyReprFields fs

end

/-- Python `str` of a JSON value, as used by f-string formatting: identity on
strings, `repr` on everything else (which coincides with `str` on scalars). -/
def Json.pyStr : Json → String
  | .str s => s
  | v => v.pyRepr

/-- Outcome of `json.loads` on a raw body text, supplied as an oracle input to
the functions that call it. -/
inductive JsonParse where
  | failed
  | ok (v : Json)

/-- Python truthiness of an optional string (`None` and `""` are falsy). -/
def truthy : Option String → Bool
  | none => false
  | some s => s != ""

/-- Python `a or b` on optional strings. -/
def pyOr (a b : Option String) : Option String :=
  if truthy a then a else b

/-- Python `a or d` where `d` is a (truthy) literal default string. -/
def pyOrD (a : Option String) (d : String) : String :=
  match a with
  | some s => if s = "" then d else s
  | none => d

/-- Python `s.rstrip("/")`: remove all trailing slashes. -/
def rstripSlash (s : String) : String :=
  String.mk ((s.data.reverse.dropWhile (fun c => c = '/')).reverse)

/-- Whether `pat` occurs as a contiguous run in a character list. -/
def charsContain (pat : List Char) : List Char → Bool
  | [] => pat.isEmpty
  | c :: rest => pat.isPrefixOf (c :: rest) || charsContain pat rest

/-- Whether `pat` occurs as a substring of `s` (Python `pat in s`). -/
def strContains (s pat : String) : Bool :=
  charsContain pat.data s.data

/-- Python `str.lower()` (ASCII case mapping, which covers every string this
client produces). -/
def pyLower (s : String) : String :=
  String.mk (s.data.map Char.toLower)

/-- An ASCII whitespace character, as stripped by Python `str.strip()`. -/
def isPySpace (c : Char) : Bool :=
  c = ' ' || c = '\t' || c = '\n' || c = '\r' || c = '\x0b' || c = '\x0c'

/-- Python `str.strip()` restricted to ASCII whitespace. -/
def pyStrip (s : String) : String :=
  String.mk (((s.data.dropWhile isPySpace).reverse.dropWhile isPySpace).reverse)

/-- UTF-8 encoding of one character, as a list of byte values. -/
def utf8Bytes (c : Char) : List Nat :=
  let n := c.toNat
  if n < 128 then [n]
  else if n < 2048 then [192 + n / 64, 128 + n % 64]
  else if n < 65536 then [224 + n / 4096, 128 + (n / 64) % 64, 128 + n % 64]
  else [240 + n / 262144, 128 + (n / 4096) % 64, 128 + (n / 64) % 64, 128 + n % 64]

/-- The bytes `urllib.parse.quote` never encodes: ASCII letters, digits,
`_`, `.`, `-`, `~` (with `safe=''` nothing else is exempt). -/
def isAlwaysSafe (b : Nat) : Bool :=
  (65 ≤ b && b ≤ 90) || (97 ≤ b && b ≤ 122) || (48 ≤ b && b ≤ 57) ||
    b == 45 || b == 46 || b == 95 || b == 126

/-- Upper-case hexadecimal digit. -/
def hexDigit (n : Nat) : Char :=
  if n < 10 then Char.ofNat (48 + n) else Char.ofNat (55 + n)

/-- Percent-escape of one byte: `%XX` with upper-case hex. -/
def pctByte (b : Nat) : String :=
  (("%".push (hexDigit (b / 16))).push (hexDigit (b % 16)))

/-- `urllib.parse.quote(s, safe='')`: percent-encode every UTF-8 byte of `s`
except the always-safe ones; no character is treated as a path separator. -/
def quoteNoSafe (s : String) : String :=
  String.join (s.data.flatMap (fun c =>
    (utf8Bytes c).map (fun b =>
      if isAlwaysSafe b then String.singleton (Char.ofNat b) else pctByte b)))

/-- An HTTP request as built by either surface, just before `urlopen`. -/
structure Request where
  method : String
  url : String
  headers : List (String × String)
  body : Option Json

/-- Whether the header list carries the given key. -/
def Request.hasHeaderKey (r : Request) (key : String) : Bool :=
  r.headers.any (fun p => p.1 == key)

/-- The value of the given header key, if present. -/
def Request.headerValue (r : Request) (key : String) : Option String :=
  (r.headers.find? (fun p => p.1 == key)).map Prod.snd

/-- The method, URL and body of a request (everything except the headers). -/
def Request.core (r : Request) : String × String × Option Json :=
  (r.method, r.url, r.body)

example : quoteNoSafe "a/b" = "a%2Fb" := by decide
example : quoteNoSafe "a b%20" = "a%20b%2520" := by decide
example : rstripSlash "http://x//" = "http://x" := by decide

namespace Cli

/-- The environment variables read by `cynsta_spendguard_cli.main`
(`os.getenv` yields `none` when unset). -/
structure Env where
  capMode : Option String
  capBaseUrl : Option String
  capApiKey : Option String

/-- `_mode()`: `(os.getenv("CAP_MODE") or "sidecar").strip().lower()`. -/
def mode (env : Env) : String :=
  pyLower (pyStrip (pyOrD env.capMode "sidecar"))

/-- `_base_url(value)`: flag value, else `CAP_BASE_URL`, else the literal
default, with trailing slashes stripped. -/
def baseUrl (value : Option String) (env : Env) : String :=
  rstripSlash (pyOrD (pyOr value env.capBaseUrl) "http://localhost:8787")

/-- `_headers(api_key)`: always `Content-Type`, plus `x-api-key` when the key
is truthy. -/
def headers (apiKey : Option String) : List (String × String) :=
  [("Content-Type", "application/json")] ++
    (match apiKey with
     | some k => if k = "" then [] else [("x-api-key", k)]
     | none => [])

/-- The errors raised as `CliError` in `main.py`, tagged by raise site; the
tag names follow the taxonomy of the specification (auth, transport,
application/http, parse, shape), `missing` being the agents-list check. -/
inductive Err where
  | auth (msg : String)
  | http (msg : String)
  | transport (msg : String)
  | parse (msg : String)
  | shape (msg : String)
  | missing (msg : String)
deriving DecidableEq

/-- `str(exc)` for a `CliError`. -/
def Err.message : Err → String
  | .auth m | .http m | .transport m | .parse m | .shape m | .missing m => m

/-- The message of the auth failure in `_resolve_api_key` (the `--` of the
flag name is assembled, not written literally). -/
def authErrMsg : String :=
  "Hosted mode requires API key via " ++ "-" ++ "-api-key or CAP_API_KEY"

/-- `_resolve_api_key(args)`: flag value or `CAP_API_KEY`; in hosted mode a
missing (falsy) key raises `CliError` before anything else happens. -/
def resolveApiKey (argsApiKey : Option String) (env : Env) :
    Except Err (Option String) :=
  let apiKey := pyOr argsApiKey env.capApiKey
  if mode env = "hosted" && !truthy apiKey then
    .error (.auth authErrMsg)
  else
    .ok apiKey

/-- `_extract_detail(raw_body)` with the `json.loads` outcome as oracle. -/
def extractDetail (rawBody : String) (parse : JsonParse) : String :=
  if rawBody = "" then "request failed"
  else
    match parse with
    | .failed => rawBody
    | .ok v =>
      match v with
      | .obj fields =>
        match lookupJson "detail" fields with
        | some (Json.str d) => d
        | _ => rawBody
      | _ => rawBody

/-- The `CliError` raised in `_request_json` for an HTTP error response. -/
def httpErr (code : Nat) (errorBody : String) (parse : JsonParse) : Err :=
  .http ("HTTP " ++ toString code ++ ": " ++ extractDetail errorBody parse)

/-- The success-path tail of `_request_json`: empty body yields the empty
dict, an unparsable body raises, a non-dict top level raises, a dict is
returned as is. -/
def normalizeResponse (responseBody : String) (parse : JsonParse) :
    Except Err (List (String × Json)) :=
  if responseBody = "" then .ok []
  else
    match parse with
    | .failed => .error (.parse "Server response was not valid JSON")
    | .ok v =>
      match v with
      | .obj fields => .ok fields
      | _ => .error (.shape "Server response must be a JSON object")

/-- `_non_negative_int(value)` with the outcome of `int(value)` as oracle
(`none` means `int()` raised `ValueError`); an error here is an
`ArgumentTypeError`, surfaced by argparse as a usage error (exit 2) before
any handler runs. -/
def nonNegativeInt (parsedInt : Option Int) : Except String Int :=
  match parsedInt with
  | none => .error "must be an integer"
  | some p => if p < 0 then .error "must be >= 0" else .ok p

/-- `_cmd_agent_create` up to dispatch: resolve the key, build the request.
The payload carries `name` only when the flag value is truthy. -/
def cmdAgentCreateRequest (name argsBaseUrl argsApiKey : Option String)
    (env : Env) : Except Err Request := do
  let apiKey ← resolveApiKey argsApiKey env
  let endpoint := baseUrl argsBaseUrl env ++ "/v1/agents"
  let payload : List (String × Json) :=
    match name with
    | some s => if s = "" then [] else [("name", Json.str s)]
    | none => []
  pure ⟨"POST", endpoint, headers apiKey, some (Json.obj payload)⟩

/-- `_cmd_agent_list` up to dispatch. -/
def cmdAgentListRequest (argsBaseUrl argsApiKey : Option String)
    (env : Env) : Except Err Request := do
  let apiKey ← resolveApiKey argsApiKey env
  let endpoint := baseUrl argsBaseUrl env ++ "/v1/agents"
  pure ⟨"GET", endpoint, headers apiKey, none⟩

/-- `_cmd_agent_get` up to dispatch: the agent id is percent-encoded with
`urllib.parse.quote(..., safe='')`. -/
def cmdAgentGetRequest (agent : String) (argsBaseUrl argsApiKey : Option String)
    (env : Env) : Except Err Request := do
  let apiKey ← resolveApiKey argsApiKey env
  let endpoint := baseUrl argsBaseUrl env ++ "/v1/agents/" ++ quoteNoSafe agent
  pure ⟨"GET", endpoint, headers apiKey, none⟩

/-- `_cmd_agent_rename` up to dispatch. -/
def cmdAgentRenameRequest (agent name : String)
    (argsBaseUrl argsApiKey : Option String) (env : Env) : Except Err Request := do
  let apiKey ← resolveApiKey argsApiKey env
  let endpoint := baseUrl argsBaseUrl env ++ "/v1/agents/" ++ quoteNoSafe agent
  pure ⟨"PATCH", endpoint, headers apiKey, some (Json.obj [("name", Json.str name)])⟩

/-- `_cmd_agent_delete` up to dispatch. -/
def cmdAgentDeleteRequest (agent : String)
    (argsBaseUrl argsApiKey : Option String) (env : Env) : Except Err Request := do
  let apiKey ← resolveApiKey argsApiKey env
  let endpoint := baseUrl argsBaseUrl env ++ "/v1/agents/" ++ quoteNoSafe agent
  pure ⟨"DELETE", endpoint, headers apiKey, none⟩

/-- `_cmd_budget_set` up to dispatch; `limit` and `topup` have already passed
the argparse `_non_negative_int` converters. -/
def cmdBudgetSetRequest (agent : String) (limit topup : Int)
    (argsBaseUrl argsApiKey : Option String) (env : Env) : Except Err Request := do
  let apiKey ← resolveApiKey argsApiKey env
  let endpoint := baseUrl argsBaseUrl env ++ "/v1/agents/" ++ quoteNoSafe agent ++ "/budget"
  pure ⟨"POST", endpoint, headers apiKey,
    some (Json.obj [("hard_limit_cents", Json.num limit), ("topup_cents", Json.num topup)])⟩

/-- `_cmd_budget_get` up to dispatch. -/
def cmdBudgetGetRequest (agent : String)
    (argsBaseUrl argsApiKey : Option String) (env : Env) : Except Err Request := do
  let apiKey ← resolveApiKey argsApiKey env
  let endpoint := baseUrl argsBaseUrl env ++ "/v1/agents/" ++ quoteNoSafe agent ++ "/budget"
  pure ⟨"GET", endpoint, headers apiKey, none⟩

/-- `_print_agent(data, fallback_agent_id)`: the one line printed for an
agent row. -/
def printAgent (data : List (String × Json)) (fallback : Option String) : String :=
  let agentId :=
    match lookupJson "agent_id" data with
    | some v => v.pyStr
    | none => pyOrD fallback ""
  let line := "agent_id=" ++ agentId
  let line :=
    match lookupJson "name" data with
    | some v => if v.pyTruthy then line ++ " name=" ++ v.pyStr else line
    | none => line
  match lookupJson "created_at" data with
  | some v => if v.pyTruthy then line ++ " created_at=" ++ v.pyStr else line
  | none => line

/-- The human-mode (non `--json`) tail of `_cmd_agent_list`: the list of
stdout lines it prints, or the `CliError` it raises, given the normalized
response dict. -/
def cmdAgentListRender (data : List (String × Json)) : Except Err (List String) :=
  match lookupJson "agents" data with
  | some (Json.arr rows) =>
    if rows.isEmpty then .ok ["(no agents)"]
    else
      .ok (rows.filterMap (fun row =>
        match row with
        | Json.obj fields => some (printAgent fields none)
        | _ => none))
  | _ => .error (.missing "Server response missing agents list")

/-- `main()`: a `CliError` becomes one stderr line and exit code 1; success
keeps the handler exit code 0. Result: (exit code, stderr lines). -/
def mainOutcome {α : Type} (r : Except Err α) : Nat × List String :=
  match r with
  | .ok _ => (0, [])
  | .error e => (1, [e.message])

end Cli

namespace Sdk

/-- `SpendGuardClient` state: `base_url` (stored with trailing slashes
stripped by `__init__`) and the optional `api_key`. -/
structure Client where
  baseUrl : String
  apiKey : Option String

/-- `SpendGuardClient.__init__(base_url, api_key)`. -/
def Client.init (base_url : String) (api_key : Option String) : Client :=
  ⟨rstripSlash base_url, api_key⟩

/-- The request-building half of `SpendGuardClient._request_json`: headers
are `Accept` always, `Content-Type` only when a payload is present,
`x-api-key` when the stored key is truthy; the URL is base plus path. -/
def request (c : Client) (method path : String) (payload : Option Json) : Request :=
  let headers := [("Accept", "application/json")] ++
    (match payload with
     | some _ => [("Content-Type", "application/json")]
     | none => []) ++
    (match c.apiKey with
     | some k => if k = "" then [] else [("x-api-key", k)]
     | none => [])
  ⟨method, c.baseUrl ++ path, headers, payload⟩

/-- The errors the response half of `SpendGuardClient._request_json` can
raise: the `json.JSONDecodeError` from `json.loads` propagating unwrapped,
or the `RuntimeError` for a non-dict top level. -/
inductive Err where
  | jsonDecodeError
  | runtimeError (msg : String)
deriving DecidableEq

/-- The response half of `SpendGuardClient._request_json`:
`parsed = json.loads(raw) if raw else {}` then the dict-shape check. -/
def normalizeResponse (raw : String) (parse : JsonParse) :
    Except Err (List (String × Json)) :=
  if raw = "" then .ok []
  else
    match parse with
    | .failed => .error .jsonDecodeError
    | .ok v =>
      match v with
      | .obj fields => .ok fields
      | _ => .error (.runtimeError "Expected JSON object response")

/-- `create_agent(name)`: the payload carries `name` whenever it is not
`None` (an empty string is included, unlike the CLI). -/
def createAgent (c : Client) (name : Option String) : Request :=
  let payload : List (String × Json) :=
    match name with
    | some s => [("name", Json.str s)]
    | none => []
  request c "POST" "/v1/agents" (some (Json.obj payload))

/-- `list_agents()`. -/
def listAgents (c : Client) : Request :=
  request c "GET" "/v1/agents" none

/-- `set_budget(agent_id, hard_limit_cents, topup_cents)`: the agent id is
interpolated into the path unencoded, and the two amounts are sent as
given (after `int()` coercion, identity on integers) with no sign check. -/
def setBudget (c : Client) (agentId : String) (hardLimitCents topupCents : Int) :
    Request :=
  request c "POST" ("/v1/agents/" ++ agentId ++ "/budget")
    (some (Json.obj [("hard_limit_cents", Json.num hardLimitCents),
                     ("topup_cents", Json.num topupCents)]))

/-- `get_budget(agent_id)`: path interpolated unencoded. -/
def getBudget (c : Client) (agentId : String) : Request :=
  request c "GET" ("/v1/agents/" ++ agentId ++ "/budget") none

/-- `create_run(agent_id)`: path interpolated unencoded. -/
def createRun (c : Client) (agentId : String) : Request :=
  request c "POST" ("/v1/agents/" ++ agentId ++ "/runs") (some (Json.obj []))

/-- `openai_chat_completions(agent_id, run_id, payload)`: both ids
interpolated unencoded. -/
def openaiChatCompletions (c : Client) (agentId runId : String) (payload : Json) :
    Request :=
  request c "POST"
    ("/v1/agents/" ++ agentId ++ "/runs/" ++ runId ++ "/openai/chat/completions")
    (some payload)

end Sdk

section HelperLemmas

theorem cli_headers_content_type (k : Option String) :
    (Cli.headers k).any (fun p => p.1 == "Content-Type") = true := by
  rcases k with _ | s
  · rfl
  · by_cases h : s = "" <;> simp [Cli.headers, h]

theorem cli_headers_no_accept (k : Option String) :
    (Cli.headers k).any (fun p => p.1 == "Accept") = false := by
  rcases k with _ | s
  · rfl
  · by_cases h : s = "" <;> simp [Cli.headers, h]

theorem cli_headers_api_key (k : Option String) :
    (Cli.headers k).any (fun p => p.1 == "x-api-key") = truthy k := by
  rcases k with _ | s
  · rfl
  · by_cases h : s = "" <;> simp [Cli.headers, truthy, h]

theorem sdk_headers_accept (c : Sdk.Client) (method path : String) (payload : Option Json) :
    (Sdk.request c method path payload).hasHeaderKey "Accept" = true := by
  simp [Sdk.request, Request.hasHeaderKey]

theorem sdk_headers_content_type (c : Sdk.Client) (method path : String) (payload : Option Json) :
    (Sdk.request c method path payload).hasHeaderKey "Content-Type" = payload.isSome := by
  rcases c with ⟨b, key⟩
  rcases payload with _ | v
  · rcases key with _ | s
    · rfl
    · by_cases h : s = "" <;> simp [Sdk.request, Request.hasHeaderKey, h]
  · simp [Sdk.request, Request.hasHeaderKey]

theorem sdk_headers_api_key (c : Sdk.Client) (method path : String) (payload : Option Json) :
    (Sdk.request c method path payload).hasHeaderKey "x-api-key" = truthy c.apiKey := by
  rcases c with ⟨b, key⟩
  rcases key with _ | s
  · rcases payload with _ | v <;> rfl
  · by_cases h : s = "" <;>
      rcases payload with _ | v <;>
      simp [Sdk.request, Request.hasHeaderKey, truthy, h]

end HelperLemmas

/-- C2: the claim says every path-taking operation of either surface
percent-encodes the agent (or run) identifier exactly once with no safe
characters.  The CLI does (`urllib.parse.quote(..., safe='')`), but the
library interpolates identifiers raw: `set_budget` on agent id `a/b` builds
the path `/v1/agents/a/b/budget`, so `/` acts as a path separator; the
repository's own client tests and the spec invariant require the encoded
form, so this is a code bug in `client.py`. -/
theorem c2_sdk_path_encoding_bug :
    (Sdk.setBudget (Sdk.Client.init "https://example.com" none) "a/b" 5000 0).url =
      "https://example.com/v1/agents/a/b/budget" ∧
    (Sdk.getBudget (Sdk.Client.init "https://example.com" none) "a b").url =
      "https://example.com/v1/agents/a b/budget" ∧
    (Sdk.createRun (Sdk.Client.init "https://example.com" none) "100%").url =
      "https://example.com/v1/agents/100%/runs" ∧
    (Sdk.openaiChatCompletions (Sdk.Client.init "https://example.com" none)
        "a" "r/1" (Json.obj [])).url =
      "https://example.com/v1/agents/a/runs/r/1/openai/chat/completions" ∧
    quoteNoSafe "a/b" = "a%2Fb" ∧
    (Sdk.setBudget (Sdk.Client.init "https://example.com" none) "a/b" 5000 0).url ≠
      "https://example.com/v1/agents/" ++ quoteNoSafe "a/b" ++ "/budget" ∧
    (Cli.cmdAgentGetRequest "a/b" none none ⟨none, none, none⟩).map Request.url =
      .ok "http://localhost:8787/v1/agents/a%2Fb" ∧
    (Cli.cmdBudgetSetRequest "a b%20" 5000 0 none none ⟨none, none, none⟩).map Request.url =
      .ok "http://localhost:8787/v1/agents/a%20b%2520/budget" :=
  ⟨rfl, rfl, rfl, rfl, by decide, by decide, rfl, rfl⟩

/-- C3 counterexample: in sidecar mode with a key supplied via `CAP_API_KEY`,
the CLI does attach the `x-api-key` header, contradicting the claim that
sidecar mode never attaches one. -/
theorem c3_sidecar_env_key_counterexample :
    Cli.mode ⟨some "sidecar", none, some "k"⟩ = "sidecar" ∧
    (Cli.cmdAgentListRequest none none ⟨some "sidecar", none, some "k"⟩).map
      (fun r => r.headerValue "x-api-key") = .ok (some "k") :=
  ⟨by decide, rfl⟩

/-- C3 amended: for every environment, in sidecar mode the `x-api-key`
header is attached exactly when a key is available from the flag or the
environment (a supplied key is never suppressed); in hosted mode with a key
present from either source the header is always attached, carrying the
resolved key; and the resolution itself gives the explicit flag value
precedence over the environment value whenever the flag is supplied. -/
theorem c3_key_attachment_policy (env : Cli.Env) (flagKey bu : Option String) :
    (Cli.mode env = "sidecar" →
      (Cli.cmdAgentListRequest bu flagKey env).map
          (fun r => r.hasHeaderKey "x-api-key") =
        .ok (truthy (pyOr flagKey env.capApiKey))) ∧
    (Cli.mode env = "hosted" → truthy (pyOr flagKey env.capApiKey) = true →
      (Cli.cmdAgentListRequest bu flagKey env).map
          (fun r => r.headerValue "x-api-key") =
        .ok (pyOr flagKey env.capApiKey)) ∧
    (∀ k, flagKey = some k → k ≠ "" → pyOr flagKey env.capApiKey = some k) := by
  refine ⟨?_, ?_, ?_⟩
  · intro hm
    have hres : Cli.resolveApiKey flagKey env = .ok (pyOr flagKey env.capApiKey) := by
      simp [Cli.resolveApiKey, hm]
    simp [Cli.cmdAgentListRequest, hres, Except.map, Request.hasHeaderKey,
      cli_headers_api_key]
  · intro hm hk
    have hres : Cli.resolveApiKey flagKey env = .ok (pyOr flagKey env.capApiKey) := by
      simp [Cli.resolveApiKey, hm, hk]
    rcases hK : pyOr flagKey env.capApiKey with _ | s
    · rw [hK] at hk
      exact absurd hk (by simp [truthy])
    · rw [hK] at hres hk
      have hs : s ≠ "" := by simpa [truthy] using hk
      simp [Cli.cmdAgentListRequest, hres, Except.map, Request.headerValue,
        Cli.headers, List.find?, hs]
  · intro k hk hne
    subst hk
    simp [pyOr, truthy, hne]

/-- C3 amended witness: a sidecar environment with an env-only key, a hosted
environment with an env-only key, and the flag-over-env precedence. -/
theorem c3_key_attachment_policy_witness :
    ((Cli.cmdAgentListRequest none none ⟨some "sidecar", none, some "ek"⟩).map
        (fun r => r.hasHeaderKey "x-api-key") =
      .ok (truthy (pyOr none (some "ek")))) ∧
    ((Cli.cmdAgentListRequest none none ⟨some "hosted", none, some "ek"⟩).map
        (fun r => r.headerValue "x-api-key") = .ok (pyOr none (some "ek"))) ∧
    pyOr (some "fk") (some "ek") = some "fk" :=
  ⟨(c3_key_attachment_policy ⟨some "sidecar", none, some "ek"⟩ none none).1 (by decide),
   (c3_key_attachment_policy ⟨some "hosted", none, some "ek"⟩ none none).2.1
     (by decide) (by decide),
   (c3_key_attachment_policy ⟨some "hosted", none, some "ek"⟩ (some "fk") none).2.2
     "fk" rfl (by decide)⟩

/-- C4: in hosted mode with no key from the flag or `CAP_API_KEY`, every CLI
command fails at the auth-resolution site (the spec taxonomy's `AuthError`)
with a message containing "requires API key"; the `Except.error` result means
no `Request` value is ever produced, so the network layer is not invoked. -/
theorem c4_hosted_missing_key_fails_before_dispatch
    (env : Cli.Env) (argsApiKey argsBaseUrl nameFlag : Option String)
    (agent newName : String) (limit topup : Int)
    (hmode : Cli.mode env = "hosted")
    (hkey : truthy (pyOr argsApiKey env.capApiKey) = false) :
    Cli.cmdAgentCreateRequest nameFlag argsBaseUrl argsApiKey env =
      .error (.auth Cli.authErrMsg) ∧
    Cli.cmdAgentListRequest argsBaseUrl argsApiKey env =
      .error (.auth Cli.authErrMsg) ∧
    Cli.cmdAgentGetRequest agent argsBaseUrl argsApiKey env =
      .error (.auth Cli.authErrMsg) ∧
    Cli.cmdAgentRenameRequest agent newName argsBaseUrl argsApiKey env =
      .error (.auth Cli.authErrMsg) ∧
    Cli.cmdAgentDeleteRequest agent argsBaseUrl argsApiKey env =
      .error (.auth Cli.authErrMsg) ∧
    Cli.cmdBudgetSetRequest agent limit topup argsBaseUrl argsApiKey env =
      .error (.auth Cli.authErrMsg) ∧
    Cli.cmdBudgetGetRequest agent argsBaseUrl argsApiKey env =
      .error (.auth Cli.authErrMsg) ∧
    strContains Cli.authErrMsg "requires API key" = true := by
  have hres : Cli.resolveApiKey argsApiKey env = .error (.auth Cli.authErrMsg) := by
    simp [Cli.resolveApiKey, hmode, hkey]
  refine ⟨?_, ?_, ?_, ?_, ?_, ?_, ?_, by decide⟩ <;>
    simp [Cli.cmdAgentCreateRequest, Cli.cmdAgentListRequest, Cli.cmdAgentGetRequest,
      Cli.cmdAgentRenameRequest, Cli.cmdAgentDeleteRequest, Cli.cmdBudgetSetRequest,
      Cli.cmdBudgetGetRequest, hres]

/-- C4 witness at a concrete hosted environment with no key anywhere. -/
theorem c4_hosted_missing_key_witness :
    Cli.cmdBudgetSetRequest "a1" 5000 0 none none ⟨some "hosted", none, none⟩ =
      .error (.auth Cli.authErrMsg) ∧
    strContains Cli.authErrMsg "requires API key" = true := by
  have h := c4_hosted_missing_key_fails_before_dispatch
    ⟨some "hosted", none, none⟩ none none none "a1" "n" 5000 0 (by decide) (by decide)
  exact ⟨h.2.2.2.2.2.1, h.2.2.2.2.2.2.2⟩

/-- C5 counterexample: the library's `set_budget` performs no non-negativity
validation — called with `hard_limit_cents = -1` it still builds (and would
dispatch) the request, carrying the negative value in the body. -/
theorem c5_sdk_no_validation_counterexample :
    Sdk.setBudget (Sdk.Client.init "http://localhost:8787" none) "a1" (-1) 0 =
      ⟨"POST", "http://localhost:8787/v1/agents/a1/budget",
       [("Accept", "application/json"), ("Content-Type", "application/json")],
       some (Json.obj [("hard_limit_cents", Json.num (-1)),
                       ("topup_cents", Json.num 0)])⟩ :=
  rfl

/-- C5 amended: both surfaces send exactly the body with `hard_limit_cents`
and `topup_cents` to POST `<base>/v1/agents/<id>/budget`; on the CLI the two
flags pass the argparse `_non_negative_int` converter (accepting exactly the
non-negative integer parses, rejecting others as usage errors before any
handler or network call), while the library sends whatever integers it is
given with no non-negativity check. -/
theorem c5_budget_set_body_and_validation
    (agent : String) (limit topup : Int) (c : Sdk.Client)
    (bu fk : Option String) (env : Cli.Env)
    (hres : ∃ k, Cli.resolveApiKey fk env = .ok k) :
    (∀ p : Int, Cli.nonNegativeInt (some p) = .ok p ↔ 0 ≤ p) ∧
    Cli.nonNegativeInt none = .error "must be an integer" ∧
    (Cli.cmdBudgetSetRequest agent limit topup bu fk env).map Request.core =
      .ok ("POST",
        Cli.baseUrl bu env ++ "/v1/agents/" ++ quoteNoSafe agent ++ "/budget",
        some (Json.obj [("hard_limit_cents", Json.num limit),
                        ("topup_cents", Json.num topup)])) ∧
    (Sdk.setBudget c agent limit topup).core =
      ("POST", c.baseUrl ++ "/v1/agents/" ++ agent ++ "/budget",
       some (Json.obj [("hard_limit_cents", Json.num limit),
                       ("topup_cents", Json.num topup)])) := by
  obtain ⟨k, hk⟩ := hres
  refine ⟨?_, rfl, ?_, by simp [Sdk.setBudget, Sdk.request, Request.core,
    String.append_assoc]⟩
  · intro p
    constructor
    · intro h
      by_contra hneg
      simp [Cli.nonNegativeInt, Int.lt_iff_le_and_ne] at h
      omega
    · intro h
      have : ¬ p < 0 := by omega
      simp [Cli.nonNegativeInt, this]
  · simp [Cli.cmdBudgetSetRequest, hk, Except.map, Request.core]

/-- C5 amended witness at concrete inputs. -/
theorem c5_budget_set_witness :
    (Cli.cmdBudgetSetRequest "abc" 5000 5000 none none ⟨none, none, none⟩).map
      Request.core =
      .ok ("POST", "http://localhost:8787/v1/agents/abc/budget",
        some (Json.obj [("hard_limit_cents", Json.num 5000),
                        ("topup_cents", Json.num 5000)])) ∧
    (Sdk.setBudget (Sdk.Client.init "http://localhost:8787" none) "abc" 5000 5000).core =
      ("POST", "http://localhost:8787/v1/agents/abc/budget",
       some (Json.obj [("hard_limit_cents", Json.num 5000),
                       ("topup_cents", Json.num 5000)])) := by
  have h := c5_budget_set_body_and_validation "abc" 5000 5000
    (Sdk.Client.init "http://localhost:8787" none) none none ⟨none, none, none⟩
    ⟨none, rfl⟩
  exact ⟨h.2.2.1, h.2.2.2⟩

/-- C6 counterexample: on the library surface the non-mapping case raises
`RuntimeError("Expected JSON object response")`, whose message does not
contain "response must be a JSON object", and an unparsable body propagates
the bare `json.JSONDecodeError` rather than a ParseError with the claimed
message. -/
theorem c6_sdk_normalization_counterexample :
    Sdk.normalizeResponse "[]" (.ok (Json.arr [])) =
      .error (.runtimeError "Expected JSON object response") ∧
    strContains "Expected JSON object response" "response must be a JSON object" = false ∧
    Sdk.normalizeResponse "nope" .failed = .error .jsonDecodeError :=
  ⟨rfl, by decide, rfl⟩

/-- C6 amended: on both surfaces normalization is the total three-way split
(empty body to the empty mapping, unparsable body to a parse-stage error,
non-mapping JSON to a shape-stage error, mapping returned unchanged); the
CLI's messages contain the quoted texts, while the library propagates the
bare `json.JSONDecodeError` and raises
`RuntimeError("Expected JSON object response")` instead. -/
theorem c6_normalization_cases (body : String) (parse : JsonParse)
    (fields : List (String × Json)) (v : Json) :
    (Cli.normalizeResponse "" parse = .ok [] ∧
     Sdk.normalizeResponse "" parse = .ok []) ∧
    (body ≠ "" →
      Cli.normalizeResponse body .failed =
        .error (.parse "Server response was not valid JSON") ∧
      Sdk.normalizeResponse body .failed = .error .jsonDecodeError ∧
      strContains "Server response was not valid JSON"
        "response was not valid JSON" = true) ∧
    (body ≠ "" → (∀ fs, v ≠ Json.obj fs) →
      Cli.normalizeResponse body (.ok v) =
        .error (.shape "Server response must be a JSON object") ∧
      Sdk.normalizeResponse body (.ok v) =
        .error (.runtimeError "Expected JSON object response") ∧
      strContains "Server response must be a JSON object"
        "response must be a JSON object" = true) ∧
    (body ≠ "" →
      Cli.normalizeResponse body (.ok (Json.obj fields)) = .ok fields ∧
      Sdk.normalizeResponse body (.ok (Json.obj fields)) = .ok fields) := by
  refine ⟨⟨rfl, rfl⟩, ?_, ?_, ?_⟩
  · intro hb
    exact ⟨by simp [Cli.normalizeResponse, hb], by simp [Sdk.normalizeResponse, hb],
      by decide⟩
  · intro hb hv
    refine ⟨?_, ?_, by decide⟩ <;>
      rcases v with _ | b | n | s | xs | fs <;>
      first
      | exact absurd rfl (hv _)
      | simp [Cli.normalizeResponse, Sdk.normalizeResponse, hb]
  · intro hb
    exact ⟨by simp [Cli.normalizeResponse, hb], by simp [Sdk.normalizeResponse, hb]⟩

/-- C6 amended witness at concrete bodies. -/
theorem c6_normalization_witness :
    Cli.normalizeResponse "nope" .failed =
      .error (.parse "Server response was not valid JSON") ∧
    Cli.normalizeResponse "[]" (.ok (Json.arr [])) =
      .error (.shape "Server response must be a JSON object") ∧
    Cli.normalizeResponse "x" (.ok (Json.obj [("agents", Json.arr [])])) =
      .ok [("agents", Json.arr [])] := by
  have h := c6_normalization_cases "nope" JsonParse.failed
    [("agents", Json.arr [])] (Json.arr [])
  have h2 := c6_normalization_cases "[]" JsonParse.failed
    [("agents", Json.arr [])] (Json.arr [])
  have h3 := c6_normalization_cases "x" JsonParse.failed
    [("agents", Json.arr [])] (Json.arr [])
  exact ⟨(h.2.1 (by decide)).1,
    (h2.2.2.1 (by decide) (fun fs hcontra => Json.noConfusion hcontra)).1,
    (h3.2.2.2 (by decide)).1⟩

/-- The literal error-body text of the spec's worked example (braces written
as escapes), which `json.loads` parses to a dict with a string `detail`. -/
def http400ExampleBody : String :=
  "\x7b\"detail\":\"hard_limit_cents is required (int)\"\x7d"

/-- C7: the CLI surfaces a non-2xx response as `HTTP <status>: <detail>`
where `_extract_detail` yields "request failed" for an empty body, the
string `detail` field of a JSON-mapping body, and the raw body text in
every other case; on the spec's worked example the message is exactly
`HTTP 400: hard_limit_cents is required (int)`. -/
theorem c7_http_error_detail (code : Nat) (body : String) (parse : JsonParse) :
    Cli.httpErr code body parse =
      .http ("HTTP " ++ toString code ++ ": " ++ Cli.extractDetail body parse) ∧
    Cli.extractDetail "" parse = "request failed" ∧
    (body ≠ "" → Cli.extractDetail body .failed = body) ∧
    (∀ d fields, body ≠ "" → lookupJson "detail" fields = some (Json.str d) →
      Cli.extractDetail body (.ok (Json.obj fields)) = d) ∧
    (∀ fields, body ≠ "" → (∀ d, lookupJson "detail" fields ≠ some (Json.str d)) →
      Cli.extractDetail body (.ok (Json.obj fields)) = body) ∧
    (∀ v : Json, body ≠ "" → (∀ fs, v ≠ Json.obj fs) →
      Cli.extractDetail body (.ok v) = body) ∧
    Cli.httpErr 400 http400ExampleBody
        (.ok (Json.obj [("detail", Json.str "hard_limit_cents is required (int)")])) =
      .http "HTTP 400: hard_limit_cents is required (int)" := by
  refine ⟨rfl, rfl, ?_, ?_, ?_, ?_, rfl⟩
  · intro hb
    simp [Cli.extractDetail, hb]
  · intro d fields hb hd
    simp [Cli.extractDetail, hb, hd]
  · intro fields hb hd
    simp only [Cli.extractDetail, hb, if_neg hb]
    rcases hl : lookupJson "detail" fields with _ | v
    · rfl
    · rcases v with _ | b | n | s | xs | fs
      · rfl
      · rfl
      · rfl
      · exact absurd hl (hd s)
      · rfl
      · rfl
  · intro v hb hv
    rcases v with _ | b | n | s | xs | fs <;>
      first
      | exact absurd rfl (hv _)
      | simp [Cli.extractDetail, hb]

/-- C7 witness at concrete inputs. -/
theorem c7_http_error_detail_witness :
    Cli.extractDetail "oops" .failed = "oops" ∧
    Cli.httpErr 400 http400ExampleBody
        (.ok (Json.obj [("detail", Json.str "hard_limit_cents is required (int)")])) =
      .http "HTTP 400: hard_limit_cents is required (int)" := by
  have h := c7_http_error_detail 400 "oops" JsonParse.failed
  exact ⟨h.2.2.1 (by decide), h.2.2.2.2.2.2⟩

/-- C8 counterexample: a CLI request never carries an `Accept` header, and a
library GET request (no payload) carries no `Content-Type` header, so it is
false that every request of either surface includes both. -/
theorem c8_headers_counterexample :
    (Cli.cmdAgentListRequest none none ⟨none, none, none⟩).map
      (fun r => r.hasHeaderKey "Accept") = .ok false ∧
    (Sdk.listAgents (Sdk.Client.init "http://localhost:8787" none)).hasHeaderKey
      "Content-Type" = false :=
  ⟨rfl, rfl⟩

/-- C8 amended: the CLI always sends `Content-Type: application/json` and
never `Accept`; the library always sends `Accept: application/json` and
`Content-Type` exactly when a payload is present; both attach `x-api-key`
exactly when the resolved key is truthy. -/
theorem c8_header_policy (apiKey : Option String) (c : Sdk.Client)
    (method path m u : String) (payload b : Option Json) :
    (Request.mk m u (Cli.headers apiKey) b).hasHeaderKey "Content-Type" = true ∧
    (Request.mk m u (Cli.headers apiKey) b).hasHeaderKey "Accept" = false ∧
    (Request.mk m u (Cli.headers apiKey) b).hasHeaderKey "x-api-key" = truthy apiKey ∧
    (Sdk.request c method path payload).hasHeaderKey "Accept" = true ∧
    (Sdk.request c method path payload).hasHeaderKey "Content-Type" = payload.isSome ∧
    (Sdk.request c method path payload).hasHeaderKey "x-api-key" = truthy c.apiKey :=
  ⟨cli_headers_content_type apiKey, cli_headers_no_accept apiKey,
   cli_headers_api_key apiKey, sdk_headers_accept c method path payload,
   sdk_headers_content_type c method path payload,
   sdk_headers_api_key c method path payload⟩

/-- C9 counterexample: a non-empty `agents` array whose element is not a
mapping renders zero lines (the element is skipped), not one line per
element as claimed. -/
theorem c9_list_render_counterexample :
    Cli.cmdAgentListRender [("agents", Json.arr [Json.str "x"])] =
      .ok ([] : List String) ∧
    Cli.mainOutcome (Cli.cmdAgentListRender [("agents", Json.arr [Json.str "x"])]) =
      (0, ([] : List String)) :=
  ⟨rfl, rfl⟩

/-- C9 amended: with an empty `agents` array the CLI prints exactly the
sentinel line `(no agents)` and exits 0; with a non-empty array it prints
one rendered line per mapping element in input order (and exits 0), while
non-mapping elements are skipped without output. -/
theorem c9_list_render (data : List (String × Json)) (rows : List Json)
    (h : lookupJson "agents" data = some (Json.arr rows)) :
    (rows = [] →
      Cli.cmdAgentListRender data = .ok ["(no agents)"] ∧
      Cli.mainOutcome (Cli.cmdAgentListRender data) = (0, [])) ∧
    (∀ fieldss : List (List (String × Json)), fieldss ≠ [] →
      rows = fieldss.map Json.obj →
      Cli.cmdAgentListRender data =
        .ok (fieldss.map (fun f => Cli.printAgent f none)) ∧
      Cli.mainOutcome (Cli.cmdAgentListRender data) = (0, [])) ∧
    (rows ≠ [] →
      Cli.cmdAgentListRender data =
        .ok (rows.filterMap (fun row =>
          match row with
          | Json.obj fields => some (Cli.printAgent fields none)
          | _ => none))) := by
  refine ⟨?_, ?_, ?_⟩
  · intro he
    subst he
    have hr : Cli.cmdAgentListRender data = .ok ["(no agents)"] := by
      simp [Cli.cmdAgentListRender, h]
    exact ⟨hr, by simp [Cli.mainOutcome, hr]⟩
  · intro fieldss hne he
    subst he
    have hfm : ∀ l : List (List (String × Json)),
        List.filterMap (fun row =>
          match row with
          | Json.obj fields => some (Cli.printAgent fields none)
          | _ => none) (l.map Json.obj) =
        l.map (fun f => Cli.printAgent f none) := by
      intro l
      induction l with
      | nil => rfl
      | cons x xs ih => simp [ih]
    have hr : Cli.cmdAgentListRender data =
        .ok (fieldss.map (fun f => Cli.printAgent f none)) := by
      simp [Cli.cmdAgentListRender, h, hne, hfm]
    exact ⟨hr, by simp [Cli.mainOutcome, hr]⟩
  · intro hne
    simp [Cli.cmdAgentListRender, h, hne]

/-- C9 amended witness: the empty list and a one-mapping list. -/
theorem c9_list_render_witness :
    Cli.cmdAgentListRender [("agents", Json.arr [])] = .ok ["(no agents)"] ∧
    Cli.cmdAgentListRender
        [("agents", Json.arr [Json.obj [("agent_id", Json.str "a1")]])] =
      .ok ["agent_id=a1"] := by
  have h1 := (c9_list_render [("agents", Json.arr [])] [] rfl).1 rfl
  have h2 := ((c9_list_render
      [("agents", Json.arr [Json.obj [("agent_id", Json.str "a1")]])]
      [Json.obj [("agent_id", Json.str "a1")]] rfl).2.1
    [[("agent_id", Json.str "a1")]] (by simp) rfl).1
  exact ⟨h1.1, by simpa using h2⟩

/-- C10: when the normalized response has no `agents` key, or its value is
not a list, the CLI raises `CliError("Server response missing agents list")`;
`main` prints that message to stderr and exits 1, rendering nothing. -/
theorem c10_missing_agents_list (data : List (String × Json))
    (h : ∀ rows, lookupJson "agents" data ≠ some (Json.arr rows)) :
    Cli.cmdAgentListRender data =
      .error (.missing "Server response missing agents list") ∧
    Cli.mainOutcome (Cli.cmdAgentListRender data) =
      (1, ["Server response missing agents list"]) := by
  have hr : Cli.cmdAgentListRender data =
      .error (.missing "Server response missing agents list") := by
    unfold Cli.cmdAgentListRender
    rcases hl : lookupJson "agents" data with _ | v
    · rfl
    · rcases v with _ | b | n | s | xs | fs
      · rfl
      · rfl
      · rfl
      · rfl
      · exact absurd hl (h xs)
      · rfl
  exact ⟨hr, by simp [Cli.mainOutcome, hr, Cli.Err.message]⟩

/-- C10 witness: a response with a non-list `agents` value. -/
theorem c10_missing_agents_list_witness :
    Cli.cmdAgentListRender [("agents", Json.str "x")] =
      .error (.missing "Server response missing agents list") ∧
    Cli.mainOutcome (Cli.cmdAgentListRender [("agents", Json.str "x")]) =
      (1, ["Server response missing agents list"]) :=
  c10_missing_agents_list [("agents", Json.str "x")]
    (fun rows hcontra => by simp [lookupJson] at hcontra)

/-- C1 counterexample: for the same resolved configuration and the same
operation (list agents), the two surfaces agree on method, URL and body but
build different header sets — the CLI sends only `Content-Type`, the library
only `Accept` — so the surfaces are not behaviorally equivalent as claimed. -/
theorem c1_facade_counterexample :
    (Cli.cmdAgentListRequest none none ⟨none, none, none⟩).map Request.core =
      .ok (Sdk.listAgents (Sdk.Client.init "http://localhost:8787" none)).core ∧
    (Cli.cmdAgentListRequest none none ⟨none, none, none⟩).map Request.headers =
      .ok [("Content-Type", "application/json")] ∧
    (Sdk.listAgents (Sdk.Client.init "http://localhost:8787" none)).headers =
      [("Accept", "application/json")] ∧
    ([("Content-Type", "application/json")] : List (String × String)) ≠
      [("Accept", "application/json")] :=
  ⟨rfl, rfl, rfl, by decide⟩

/-- C1 amended: for the operations the two surfaces share (create agent,
list agents, set budget, get budget — run creation exists only on the
library), with the same resolved base URL, a successfully resolved key, an
agent id unchanged by percent-encoding, and a name that is absent or
non-empty, both surfaces build the same method, URL and JSON body; the
headers differ as in the header-policy theorem, and error normalization
differs between the surfaces. -/
theorem c1_facade_core_agreement (env : Cli.Env) (bu fk : Option String)
    (c : Sdk.Client) (name : Option String) (agent : String) (limit topup : Int)
    (hbase : Cli.baseUrl bu env = c.baseUrl)
    (hres : ∃ k, Cli.resolveApiKey fk env = .ok k)
    (hagent : quoteNoSafe agent = agent)
    (hname : name = none ∨ ∃ s, name = some s ∧ s ≠ "") :
    (Cli.cmdAgentCreateRequest name bu fk env).map Request.core =
      .ok (Sdk.createAgent c name).core ∧
    (Cli.cmdAgentListRequest bu fk env).map Request.core =
      .ok (Sdk.listAgents c).core ∧
    (Cli.cmdBudgetSetRequest agent limit topup bu fk env).map Request.core =
      .ok (Sdk.setBudget c agent limit topup).core ∧
    (Cli.cmdBudgetGetRequest agent bu fk env).map Request.core =
      .ok (Sdk.getBudget c agent).core := by
  obtain ⟨k, hk⟩ := hres
  refine ⟨?_, ?_, ?_, ?_⟩
  · rcases hname with hn | ⟨s, hn, hs⟩
    · subst hn
      simp [Cli.cmdAgentCreateRequest, Sdk.createAgent, Sdk.request, Request.core,
        Except.map, hk, hbase]
    · subst hn
      simp [Cli.cmdAgentCreateRequest, Sdk.createAgent, Sdk.request, Request.core,
        Except.map, hk, hbase, hs]
  · simp [Cli.cmdAgentListRequest, Sdk.listAgents, Sdk.request, Request.core,
      Except.map, hk, hbase]
  · simp [Cli.cmdBudgetSetRequest, Sdk.setBudget, Sdk.request, Request.core,
      Except.map, hk, hbase, hagent, String.append_assoc]
  · simp [Cli.cmdBudgetGetRequest, Sdk.getBudget, Sdk.request, Request.core,
      Except.map, hk, hbase, hagent, String.append_assoc]

/-- C1 amended witness at a concrete shared configuration. -/
theorem c1_facade_core_agreement_witness :
    (Cli.cmdBudgetSetRequest "abc" 5000 0 none none ⟨none, none, none⟩).map
        Request.core =
      .ok (Sdk.setBudget (Sdk.Client.init "http://localhost:8787" none)
        "abc" 5000 0).core ∧
    (Cli.cmdAgentCreateRequest (some "alpha") none none ⟨none, none, none⟩).map
        Request.core =
      .ok (Sdk.createAgent (Sdk.Client.init "http://localhost:8787" none)
        (some "alpha")).core := by
  have h := c1_facade_core_agreement ⟨none, none, none⟩ none none
    (Sdk.Client.init "http://localhost:8787" none) (some "alpha") "abc" 5000 0
    (by decide) ⟨none, rfl⟩ (by decide) (Or.inr ⟨"alpha", rfl, by decide⟩)
  exact ⟨h.2.2.1, h.1⟩
